import Mathlib

/-
Verification of the training-script orchestration in src/train.py.

The visible source is a single file, train.py.  Its helper modules
(data_utils, modeling_utils, training_utils) and the external libraries
(datasets, transformers, wandb, jax) are not part of the visible source;
where a claim depends on one of them, the corresponding definition below
is modelled from the specification and carries a doc comment saying so.
Everything else is translated directly from train.py.
-/

/-- Exceptions that the Python script can raise, other than KeyboardInterrupt
(which in Python is not an Exception subclass and is modelled separately as a
training outcome). -/
inductive Exc where
  | keyError (k : String)
  | indexError
  | fileNotFound (path : String)
  | other (msg : String)
deriving DecidableEq

/-- A raw CSV row of the dataset.  The columns the visible code touches are
the text fields, BRAND and BROWSE_NODE_ID; BRAND is optional (nullable). -/
structure Row where
  title : String
  description : String
  brand : Option String
  browseNode : Option String
deriving DecidableEq, Inhabited

/-- A preprocessed example: the concatenated text fingerprint plus the
integer-encoded brand label (vocabulary id or the ignore sentinel). -/
structure EncodedRow where
  text : String
  brandLabel : Int
deriving DecidableEq, Inhabited

/-- The tokenizer as far as train.py observes it: only its sep token is read. -/
structure Tokenizer where
  sep_token : String
deriving DecidableEq, Inhabited

/-- The model as train.py observes it: built by Classifier.from_pretrained
from a base model id and the two head sizes, and never rebound afterwards. -/
structure Classifier where
  base_model_id : String
  num_browse_nodes : Nat
  num_brands : Nat
deriving DecidableEq, Inhabited

/-- Mirrors modeling_utils.Classifier.from_pretrained as called on lines
73 to 77 of train.py: a model whose two heads are sized by the two
vocabulary cardinalities. -/
def Classifier.from_pretrained (id : String) (num_browse_nodes num_brands : Nat) :
    Classifier :=
  { base_model_id := id, num_browse_nodes := num_browse_nodes,
    num_brands := num_brands }

/-- Mirrors model.save_pretrained(path): the observable effect is that the
current model value is written at the given path. -/
def Classifier.save_pretrained (m : Classifier) (path : String) :
    String × Classifier :=
  (path, m)

/-- Training state: parameters plus bookkeeping, created once by
trainer.create_state and replaced (never mutated in place) by each update. -/
structure TrainState where
  modelParams : Classifier
  step : Nat
  totalSteps : Nat
deriving DecidableEq

/-- Mirrors trainer.create_state(model, tx, num_train_steps, ckpt_dir=None)
on line 96: a fresh state holding the model parameters and the total step
count. -/
def createState (m : Classifier) (totalSteps : Nat) : TrainState :=
  { modelParams := m, step := 0, totalSteps := totalSteps }

/-- Outcome of the opaque trainer.train call: normal completion with a final
state, a KeyboardInterrupt, or any other raised exception. -/
inductive TrainOutcome where
  | completed (state : TrainState)
  | keyboardInterrupt
  | raised (e : Exc)

/-- Line 21 of train.py. -/
def IGNORE_IDX : Int := -100

/-- Posix os.path.join for two components, as used in __post_init__: the
second component wins when absolute, otherwise the separator is inserted
unless the first component is empty or already ends in the separator. -/
def osPathJoin (a b : String) : String :=
  if b.data.head? = some ('/') then b
  else if a = "" then b
  else if a.data.getLast? = some ('/') then a ++ b
  else a ++ "/" ++ b

/-- The declared dataclass fields of TrainingArgs (lines 23 to 45).  These
are exactly the fields dataclasses.asdict reports; the batch_size attribute
set by __post_init__ is not a declared field. -/
structure ArgFields where
  base_model_id : String
  logging_steps : Nat
  save_steps : Nat
  batch_size_per_device : Nat
  max_epochs : Nat
  seed : Nat
  val_split : Rat
  max_length : Nat
  lr : Rat
  init_lr : Rat
  warmup_steps : Nat
  weight_decay : Rat
  base_dir : String
  save_dir : String
  data_files : String
deriving DecidableEq

/-- The default field values of TrainingArgs (lines 25 to 45), with the
float literals as exact rationals. -/
def defaultArgFields : ArgFields :=
  { base_model_id := "bert-base-uncased"
    logging_steps := 3000
    save_steps := 10500
    batch_size_per_device := 1
    max_epochs := 2
    seed := 42
    val_split := 1 / 20
    max_length := 4
    lr := 3 / 100000
    init_lr := 0
    warmup_steps := 20000
    weight_decay := 95 / 10000
    base_dir := "training-expt"
    save_dir := "checkpoints"
    data_files := "../dataset/train-v2.csv" }

/-- A fully constructed TrainingArgs value, after __post_init__ has run:
save_dir holds the joined path and batch_size the derived product. -/
structure TrainingArgs where
  base_model_id : String
  logging_steps : Nat
  save_steps : Nat
  batch_size_per_device : Nat
  max_epochs : Nat
  seed : Nat
  val_split : Rat
  max_length : Nat
  lr : Rat
  init_lr : Rat
  warmup_steps : Nat
  weight_decay : Rat
  base_dir : String
  save_dir : String
  data_files : String
  batch_size : Nat
deriving DecidableEq

/-- Construction of a TrainingArgs from its declared fields, running
__post_init__ (lines 47 to 50): save_dir becomes the join of base_dir and
the given save_dir, and batch_size becomes batch_size_per_device times the
device count. -/
def TrainingArgs.postInit (f : ArgFields) (device_count : Nat) : TrainingArgs :=
  { base_model_id := f.base_model_id
    logging_steps := f.logging_steps
    save_steps := f.save_steps
    batch_size_per_device := f.batch_size_per_device
    max_epochs := f.max_epochs
    seed := f.seed
    val_split := f.val_split
    max_length := f.max_length
    lr := f.lr
    init_lr := f.init_lr
    warmup_steps := f.warmup_steps
    weight_decay := f.weight_decay
    base_dir := f.base_dir
    save_dir := osPathJoin f.base_dir f.save_dir
    data_files := f.data_files
    batch_size := f.batch_size_per_device * device_count }

/-- dataclasses.asdict on a constructed TrainingArgs: the declared fields,
with save_dir holding its already-joined value; batch_size is absent since
it is not a declared dataclass field. -/
def TrainingArgs.asdict (a : TrainingArgs) : ArgFields :=
  { base_model_id := a.base_model_id
    logging_steps := a.logging_steps
    save_steps := a.save_steps
    batch_size_per_device := a.batch_size_per_device
    max_epochs := a.max_epochs
    seed := a.seed
    val_split := a.val_split
    max_length := a.max_length
    lr := a.lr
    init_lr := a.init_lr
    warmup_steps := a.warmup_steps
    weight_decay := a.weight_decay
    base_dir := a.base_dir
    save_dir := a.save_dir
    data_files := a.data_files }

/-- Line 115: args = replace(args, **dict(wandb.config)).  wandb.config was
initialized from asdict(args) on line 114 and, in a plain (non-sweep) run,
returns that dictionary unchanged; dataclasses.replace then constructs a new
TrainingArgs from those fields, which runs __post_init__ again. -/
def replaceFromWandbConfig (a : TrainingArgs) (device_count : Nat) : TrainingArgs :=
  TrainingArgs.postInit a.asdict device_count

/-- Modelled from the spec: data_utils.build_or_load_vocab is not in the
visible source.  Per the spec (section 4.1) it maps each distinct non-null
value of a column to a unique integer id and returns an empty mapping on a
column with no non-null values; the id of a value is its position in the
key list, and the id-assignment order is left unspecified by the spec. -/
def build_or_load_vocab (vals : List (Option String)) : List String :=
  (vals.filterMap id).dedup

/-- The integer id a vocabulary assigns to a key: its position in the key
list. -/
def vocabId (vocab : List String) (v : String) : Nat :=
  vocab.indexOf v

/-- Line 65 of train.py, for one example: BRAND becomes the ignore sentinel
when missing, and otherwise the dictionary lookup brand_vocab[BRAND], which
raises KeyError when the brand is not a key. -/
def encodeBrand (vocab : List String) (r : Row) : Except Exc Int :=
  match r.brand with
  | none => Except.ok IGNORE_IDX
  | some b =>
      if b ∈ vocab then Except.ok (Int.ofNat (vocabId vocab b))
      else Except.error (Exc.keyError b)

/-- Line 65 of train.py over the whole dataset: data.map of the brand
encoding, keeping each row paired with its encoded label. -/
def encodeBrandAll (vocab : List String) (data : List Row) :
    Except Exc (List (Row × Int)) :=
  data.mapM (fun r => (encodeBrand vocab r).map (fun lbl => (r, lbl)))

/-- Modelled from the spec: data_utils.preprocess is not in the visible
source.  Per the spec (section 4.2) it joins the text fields into a single
concatenated fingerprint with the separator token and keeps the encoded
labels; it is total (never raises on missing optional fields). -/
def preprocess (sep : String) (r : Row) (brandLabel : Int) : EncodedRow :=
  { text := r.title ++ sep ++ r.description, brandLabel := brandLabel }

/-- Line 66: preprocess applied to every labelled example. -/
def preprocessAll (sep : String) (rows : List (Row × Int)) : List EncodedRow :=
  rows.map (fun p => preprocess sep p.1 p.2)

/-- Modelled from the spec: the number of test examples a fractional
test_size selects in the external train_test_split, the ceiling of the
fraction times the dataset size. -/
def numTest (n : Nat) (valSplit : Rat) : Nat :=
  (Int.toNat ⌈valSplit * (n : Rat)⌉)

/-- Modelled from the spec: the seeded permutation of the index range that
the external split shuffles with, modelled as a seed-dependent rotation of
the index range; the test indices are the first k of the permutation and
the train indices are the rest. -/
def splitIndices (n k seed : Nat) : List Nat × List Nat :=
  let perm := (List.range n).rotate seed
  (perm.drop k, perm.take k)

/-- Modelled from the spec: data.train_test_split(val_split, seed) on line
67 is the external datasets library.  Per the spec (section 3) it is a
seeded random split into two partitions; the rows are selected by the
seeded index permutation. -/
def train_test_split {α : Type} [Inhabited α] (rows : List α) (valSplit : Rat)
    (seed : Nat) : List α × List α :=
  let idx := splitIndices rows.length (numTest rows.length valSplit) seed
  (idx.1.map (fun i => rows.getD i default), idx.2.map (fun i => rows.getD i default))

/-- Modelled from the spec: the scalar learning-rate schedule returned by
training_utils.build_tx (absent from the visible source), which per the spec
(section 4.5) linearly interpolates from the initial to the peak rate over
the warmup window and holds the peak afterwards. -/
def warmupSchedule (lr init_lr : Rat) (warmup_steps : Nat) (step : Nat) : Rat :=
  init_lr + (lr - init_lr) * ((min step warmup_steps : Nat) : Rat) / ((warmup_steps : Nat) : Rat)

/-- The gradient-transform part of build_tx, as far as the visible code
observes it: it carries the weight decay and the total step count it was
built with. -/
structure Tx where
  weight_decay : Rat
  totalSteps : Nat
deriving DecidableEq

/-- Modelled from the spec: training_utils.build_tx(lr, init_lr,
warmup_steps, num_train_steps, weight_decay) on lines 80 to 82 returns the
update rule and the scalar schedule. -/
def build_tx (lr init_lr : Rat) (warmup_steps num_train_steps : Nat)
    (weight_decay : Rat) : Tx × (Nat → Rat) :=
  ({ weight_decay := weight_decay, totalSteps := num_train_steps },
   warmupSchedule lr init_lr warmup_steps)

/-- Line 79: num_train_steps = (len(tr_data) // batch_size) * max_epochs,
with Python floor division on non-negative operands. -/
def num_train_steps (trLen batch_size max_epochs : Nat) : Nat :=
  (trLen / batch_size) * max_epochs

/-- The outcomes of the external effects main performs, supplied as inputs
to the embedded main: the result of load_dataset (line 54), of
AutoTokenizer.from_pretrained (line 63), and the behaviour of
trainer.train (line 99) as a function of the state it is given. -/
structure Externals where
  loadData : Except Exc (List Row)
  loadTokenizer : Except Exc Tokenizer
  trainOutcome : TrainState → TrainOutcome

/-- The observable result of a completed run of main: whether the
KeyboardInterrupt branch ran and printed its message, the final
save_pretrained effect, and the sizes and step counts the run used. -/
structure MainResult where
  interrupted : Bool
  printedInterruptMsg : Bool
  finalSave : String × Classifier
  trainLen : Nat
  valLen : Nat
  numTrainSteps : Nat
  stateTotalSteps : Nat
  txTotalSteps : Nat
deriving DecidableEq

/-- Lines 98 to 104 condensed: the result record built when control reaches
the final save, in both the interrupted and the normal branch. -/
def mkResult (interrupted : Bool) (model : Classifier)
    (split : List EncodedRow × List EncodedRow) (steps : Nat) (tx : Tx)
    (state : TrainState) : MainResult :=
  { interrupted := interrupted
    printedInterruptMsg := interrupted
    finalSave := model.save_pretrained ("final-weights")
    trainLen := split.1.length
    valLen := split.2.length
    numTrainSteps := steps
    stateTotalSteps := state.totalSteps
    txTotalSteps := tx.totalSteps }

/-- Line 55: print(data[0], data[1]) indexes the first two rows and raises
IndexError when the dataset has fewer than two rows. -/
def printSamples (data : List Row) : Except Exc Unit :=
  if 2 ≤ data.length then Except.ok () else Except.error Exc.indexError

/-- Line 57: data.select(range(1010)) keeps exactly the first 1010 rows and
raises when the dataset has fewer than 1010 rows. -/
def select1010 (data : List Row) : Except Exc (List Row) :=
  if 1010 ≤ data.length then Except.ok (data.take 1010)
  else Except.error Exc.indexError

/-- Lines 98 to 104: the try block around trainer.train followed by the
final save.  A raised exception propagates; normal completion and a
KeyboardInterrupt both fall through to model.save_pretrained, the latter
after printing the interrupt message. -/
def finishTrain (outcome : TrainOutcome) (model : Classifier)
    (split : List EncodedRow × List EncodedRow) (steps : Nat) (tx : Tx)
    (state : TrainState) : Except Exc MainResult :=
  match outcome with
  | TrainOutcome.raised e => Except.error e
  | TrainOutcome.completed _ => Except.ok (mkResult false model split steps tx state)
  | TrainOutcome.keyboardInterrupt => Except.ok (mkResult true model split steps tx state)

/-- Lines 59 to 104 of main: everything after the dataset has been loaded,
printed and selected.  Vocabulary building, tokenizer load, brand encoding,
preprocessing, splitting, model and optimizer construction, state creation,
the trainer.train call guarded by the KeyboardInterrupt handler, and the
final save. -/
def mainCore (args : TrainingArgs) (data : List Row) (ext : Externals) :
    Except Exc MainResult :=
  let browse_node_vocab := build_or_load_vocab (data.map (fun r => r.browseNode))
  let brand_vocab := build_or_load_vocab (data.map (fun r => r.brand))
  match ext.loadTokenizer with
  | Except.error e => Except.error e
  | Except.ok tokenizer =>
    match encodeBrandAll brand_vocab data with
    | Except.error e => Except.error e
    | Except.ok labelled =>
      let encoded := preprocessAll tokenizer.sep_token labelled
      let split := train_test_split encoded args.val_split args.seed
      let model := Classifier.from_pretrained args.base_model_id
        browse_node_vocab.length brand_vocab.length
      let steps := num_train_steps split.1.length args.batch_size args.max_epochs
      let txsched := build_tx args.lr args.init_lr args.warmup_steps steps
        args.weight_decay
      let state := createState model steps
      finishTrain (ext.trainOutcome state) model split steps txsched.1 state

namespace script

/-- Lines 53 to 104: main.  Load the dataset, print the first two samples,
select the first 1010 rows, then run the rest of the pipeline.  Every
exception other than the KeyboardInterrupt from trainer.train propagates. -/
def main (args : TrainingArgs) (ext : Externals) : Except Exc MainResult :=
  match ext.loadData with
  | Except.error e => Except.error e
  | Except.ok data =>
    match printSamples data with
    | Except.error e => Except.error e
    | Except.ok _ =>
      match select1010 data with
      | Except.error e => Except.error e
      | Except.ok selected => mainCore args selected ext

end script

/-- The model main constructs on lines 73 to 77 from the selected data: the
value the final save writes, since the model variable is never rebound and
training-state updates replace the state rather than mutate the model. -/
def mainModel (args : TrainingArgs) (data : List Row) : Classifier :=
  Classifier.from_pretrained args.base_model_id
    (build_or_load_vocab (data.map (fun r => r.browseNode))).length
    (build_or_load_vocab (data.map (fun r => r.brand))).length

/-- A sample row used to evaluate the definitions on concrete inputs. -/
def wRow : Row :=
  { title := "t", description := "d", brand := some "acme", browseNode := some "42" }

/-- A sample tokenizer. -/
def wTok : Tokenizer := { sep_token := "[SEP]" }

/-- The default arguments constructed on a single-device machine. -/
def wArgs : TrainingArgs := TrainingArgs.postInit defaultArgFields 1

/-- A concrete dataset of exactly 1010 identical rows. -/
def wData : List Row := List.replicate 1010 wRow

/-- Externals for a run whose training loop is interrupted from the
keyboard. -/
def wExtKI : Externals :=
  { loadData := Except.ok wData, loadTokenizer := Except.ok wTok,
    trainOutcome := fun _ => TrainOutcome.keyboardInterrupt }

/-- Externals for a run whose training loop completes normally. -/
def wExtDone : Externals :=
  { loadData := Except.ok wData, loadTokenizer := Except.ok wTok,
    trainOutcome := fun st => TrainOutcome.completed st }

/-- Externals for a run whose training loop raises an ordinary exception. -/
def wExtRaised : Externals :=
  { loadData := Except.ok wData, loadTokenizer := Except.ok wTok,
    trainOutcome := fun _ => TrainOutcome.raised (Exc.other ("boom")) }

/-- Externals for a run whose dataset file is missing. -/
def wExtLoadErr : Externals :=
  { loadData := Except.error (Exc.fileNotFound ("../dataset/train-v2.csv")),
    loadTokenizer := Except.ok wTok,
    trainOutcome := fun st => TrainOutcome.completed st }

/-- Externals for a run whose tokenizer load fails. -/
def wExtTokErr : Externals :=
  { loadData := Except.ok wData, loadTokenizer := Except.error (Exc.other ("tokenizer")),
    trainOutcome := fun st => TrainOutcome.completed st }

/-- Externals for a run whose CSV yields a single row, fewer than 1010. -/
def wExtShort : Externals :=
  { loadData := Except.ok [wRow], loadTokenizer := Except.ok wTok,
    trainOutcome := fun st => TrainOutcome.completed st }

/-- The result of running the pipeline core on the single-row dataset with a
normally completing trainer. -/
def wResult : MainResult :=
  { interrupted := false
    printedInterruptMsg := false
    finalSave := ("final-weights",
      { base_model_id := "bert-base-uncased", num_browse_nodes := 1, num_brands := 1 })
    trainLen := 0
    valLen := 1
    numTrainSteps := 0
    stateTotalSteps := 0
    txTotalSteps := 0 }

/-- The preprocessed form of the sample row under the sample tokenizer. -/
def wEnc : EncodedRow := { text := "t" ++ "[SEP]" ++ "d", brandLabel := 0 }

theorem brand_mem_vocab {data : List Row} {r : Row} {b : String}
    (hr : r ∈ data) (hb : r.brand = some b) :
    b ∈ build_or_load_vocab (data.map (fun x => x.brand)) := by
  unfold build_or_load_vocab
  rw [List.mem_dedup, List.mem_filterMap]
  exact ⟨some b, List.mem_map.mpr ⟨r, hr, hb⟩, rfl⟩

theorem encodeBrand_self_ok {data : List Row} {r : Row} (hr : r ∈ data) :
    ∃ v, encodeBrand (build_or_load_vocab (data.map (fun x => x.brand))) r
      = Except.ok v := by
  cases hbr : r.brand with
  | none => exact ⟨IGNORE_IDX, by simp [encodeBrand, hbr]⟩
  | some b =>
      have hb := brand_mem_vocab hr hbr
      exact ⟨Int.ofNat (vocabId (build_or_load_vocab (data.map (fun x => x.brand))) b),
        by simp [encodeBrand, hbr, hb]⟩

theorem mapM_ok_of_forall {α β : Type} (f : α → Except Exc β) :
    ∀ l : List α, (∀ a ∈ l, ∃ v, f a = Except.ok v) →
      ∃ vs, l.mapM f = Except.ok vs := by
  intro l
  induction l with
  | nil => intro _; exact ⟨[], rfl⟩
  | cons a t ih =>
      intro h
      obtain ⟨v, hv⟩ := h a (List.mem_cons_self a t)
      obtain ⟨vs, hvs⟩ := ih (fun x hx => h x (List.mem_cons_of_mem a hx))
      refine ⟨v :: vs, ?_⟩
      rw [List.mapM_cons, hv, hvs]
      rfl

theorem encodeBrandAll_self_ok (data : List Row) :
    ∃ l, encodeBrandAll (build_or_load_vocab (data.map (fun r => r.brand))) data
      = Except.ok l := by
  apply mapM_ok_of_forall
  intro r hr
  obtain ⟨v, hv⟩ := encodeBrand_self_ok hr
  exact ⟨(r, v), by rw [hv]; rfl⟩

theorem main_eq_mainCore (args : TrainingArgs) (ext : Externals) (d : List Row)
    (hload : ext.loadData = Except.ok d) (hlen : 1010 ≤ d.length) :
    script.main args ext = mainCore args (d.take 1010) ext := by
  have h2 : 2 ≤ d.length := le_trans (by norm_num) hlen
  have hps : printSamples d = Except.ok () := by
    unfold printSamples; rw [if_pos h2]
  have hsel : select1010 d = Except.ok (d.take 1010) := by
    unfold select1010; rw [if_pos hlen]
  unfold script.main
  simp only [hload, hps, hsel]

/-- Claim C3 counterexample: with the default arguments on a single-device
machine, the effective args built at startup via replace from the tracking
config do NOT have save_dir equal to the join of base_dir and the original
save_dir component; __post_init__ runs again on the already-joined value and
joins base_dir a second time. -/
theorem args_savedir_claim_counterexample :
    (replaceFromWandbConfig (TrainingArgs.postInit defaultArgFields 1) 1).save_dir
      ≠ osPathJoin defaultArgFields.base_dir defaultArgFields.save_dir := by
  decide

/-- Claim C3, amended: for every choice of declared fields and device count,
construction computes save_dir as the join of base_dir and the given
save_dir and batch_size as batch_size_per_device times the device count,
and no later operation mutates them; however, rebuilding the effective args
at startup via replace from the tracking config reruns __post_init__ on the
already-joined save_dir, so the effective save_dir is the join of base_dir
with the join of base_dir and the original save_dir component. -/
theorem args_derived_fields_amended (f : ArgFields) (dc dc2 : Nat) :
    (TrainingArgs.postInit f dc).save_dir = osPathJoin f.base_dir f.save_dir
    ∧ (TrainingArgs.postInit f dc).batch_size = f.batch_size_per_device * dc
    ∧ (replaceFromWandbConfig (TrainingArgs.postInit f dc) dc2).save_dir
        = osPathJoin f.base_dir (osPathJoin f.base_dir f.save_dir)
    ∧ (replaceFromWandbConfig (TrainingArgs.postInit f dc) dc2).batch_size
        = f.batch_size_per_device * dc2 :=
  ⟨rfl, rfl, rfl, rfl⟩

/-- Claim C5: for every dataset, split fraction and seed, the produced
train and test partitions have sizes summing to the dataset size, and
their index sets do not intersect. -/
theorem train_test_split_partition (rows : List EncodedRow) (valSplit : Rat)
    (seed : Nat) :
    (train_test_split rows valSplit seed).1.length
        + (train_test_split rows valSplit seed).2.length = rows.length
    ∧ (splitIndices rows.length (numTest rows.length valSplit) seed).1.inter
        (splitIndices rows.length (numTest rows.length valSplit) seed).2 = [] := by
  constructor
  · simp only [train_test_split, splitIndices, List.length_map, List.length_drop,
      List.length_take, List.length_rotate, List.length_range]
    omega
  · apply List.inter_eq_nil_iff_disjoint.mpr
    apply List.Disjoint.symm
    apply List.disjoint_take_drop
    · exact List.nodup_rotate.mpr (List.nodup_range _)
    · exact le_refl _

/-- Claim C6 counterexample: the claim quantifies over every choice of peak
and initial rate and every warmup step count, and fails on two such
choices.  With peak 0, initial rate 1 and warmup 2 the schedule decreases
inside the warmup window, and with warmup 0 the schedule does not reach the
peak 1 at the warmup boundary. -/
theorem warmup_schedule_claim_counterexample :
    ¬ ((build_tx 0 1 2 0 0).2 0 ≤ (build_tx 0 1 2 0 0).2 1)
    ∧ (build_tx 1 0 0 5 0).2 0 ≠ 1 := by
  constructor
  · norm_num [build_tx, warmupSchedule]
  · norm_num [build_tx, warmupSchedule]

/-- Claim C6, amended: for every peak rate, initial rate, warmup count of at
least one step, total step count and weight decay, provided the initial rate
does not exceed the peak rate, the schedule returned by build_tx starts at
the initial rate, reaches the peak exactly at the warmup boundary, and is
non-decreasing at every step within the warmup window. -/
theorem warmup_schedule_amended (lr init_lr : Rat) (w steps : Nat) (wd : Rat)
    (hw : 1 ≤ w) (hmono : init_lr ≤ lr) :
    (build_tx lr init_lr w steps wd).2 0 = init_lr
    ∧ (build_tx lr init_lr w steps wd).2 w = lr
    ∧ (∀ s t, s ≤ t → t ≤ w →
        (build_tx lr init_lr w steps wd).2 s ≤ (build_tx lr init_lr w steps wd).2 t) := by
  have hwpos : (0 : Rat) < ((w : Nat) : Rat) := by exact_mod_cast hw
  have hw0 : ((w : Nat) : Rat) ≠ 0 := ne_of_gt hwpos
  refine ⟨?_, ?_, ?_⟩
  · simp [build_tx, warmupSchedule, Nat.zero_min]
  · simp only [build_tx, warmupSchedule, min_self]
    field_simp
  · intro s t hst htw
    simp only [build_tx, warmupSchedule]
    apply add_le_add_left
    have h1 : ((min s w : Nat) : Rat) ≤ ((min t w : Nat) : Rat) := by
      exact_mod_cast min_le_min hst (le_refl w)
    have h2 : (0 : Rat) ≤ lr - init_lr := sub_nonneg.mpr hmono
    have h3 : (lr - init_lr) * ((min s w : Nat) : Rat)
        ≤ (lr - init_lr) * ((min t w : Nat) : Rat) :=
      mul_le_mul_of_nonneg_left h1 h2
    exact (div_le_div_iff_of_pos_right hwpos).mpr h3

/-- Claim C6 witness: the amended schedule properties at peak 3, initial
rate 0 and a two-step warmup window. -/
theorem warmup_schedule_amended_witness :
    (build_tx 3 0 2 7 0).2 0 = 0 ∧ (build_tx 3 0 2 7 0).2 2 = 3
    ∧ (build_tx 3 0 2 7 0).2 1 ≤ (build_tx 3 0 2 7 0).2 2 := by
  have h := warmup_schedule_amended 3 0 2 7 0 (by norm_num) (by norm_num)
  exact ⟨h.1, h.2.1, h.2.2 1 2 (by norm_num) (le_refl 2)⟩

/-- Claim C7: for every column, the vocabulary keys are exactly the distinct
non-null values of the column, each key gets a unique id (distinct keys have
distinct ids), the mapping size equals the number of distinct non-null
values, and a column with no non-null values yields the empty mapping. -/
theorem vocab_unique_ids (vals : List (Option String)) :
    (build_or_load_vocab vals).Nodup
    ∧ (∀ v, v ∈ build_or_load_vocab vals ↔ v ∈ vals.filterMap id)
    ∧ (build_or_load_vocab vals).length = (vals.filterMap id).toFinset.card
    ∧ (∀ v w, v ∈ build_or_load_vocab vals → w ∈ build_or_load_vocab vals →
        vocabId (build_or_load_vocab vals) v = vocabId (build_or_load_vocab vals) w →
        v = w)
    ∧ (vals.filterMap id = [] → build_or_load_vocab vals = []) := by
  refine ⟨List.nodup_dedup _, fun v => List.mem_dedup, (List.card_toFinset _).symm,
    ?_, ?_⟩
  · intro v w hv hw hid
    exact (List.indexOf_inj hv hw).mp hid
  · intro h
    unfold build_or_load_vocab
    rw [h]
    rfl

/-- Claim C7 witness: the vocabulary properties evaluated on a small column
with a repeated value and a null, and on a column with no non-null values. -/
theorem vocab_unique_ids_witness :
    (build_or_load_vocab [some "a", none, some "b", some "a"]).Nodup
    ∧ (("a" : String) ∈ build_or_load_vocab [some "a", none, some "b", some "a"])
    ∧ (("a" : String) = "a")
    ∧ build_or_load_vocab [(none : Option String)] = [] := by
  have h1 := vocab_unique_ids [some "a", none, some "b", some "a"]
  have h2 := vocab_unique_ids [(none : Option String)]
  refine ⟨h1.1, ?_, ?_, h2.2.2.2.2 rfl⟩
  · exact (h1.2.1 "a").mpr (by decide)
  · exact h1.2.2.2.1 "a" "a" ((h1.2.1 "a").mpr (by decide))
      ((h1.2.1 "a").mpr (by decide)) rfl

/-- Claim C4: for every example of the dataset, the brand-encoding map of
line 65 succeeds (never raises on a missing brand): a missing BRAND is sent
to the ignore sentinel -100, and a present BRAND is sent to its
non-negative vocabulary id. -/
theorem brand_encoding_total (data : List Row) (r : Row) (hr : r ∈ data) :
    ∃ v : Int,
      encodeBrand (build_or_load_vocab (data.map (fun x => x.brand))) r = Except.ok v
      ∧ (r.brand = none → v = IGNORE_IDX)
      ∧ (∀ b, r.brand = some b →
          v = Int.ofNat (vocabId (build_or_load_vocab (data.map (fun x => x.brand))) b)
          ∧ 0 ≤ v) := by
  cases hbr : r.brand with
  | none =>
      refine ⟨IGNORE_IDX, by simp [encodeBrand, hbr], fun _ => rfl, ?_⟩
      intro b hb
      exact Option.noConfusion hb
  | some b =>
      have hb := brand_mem_vocab hr hbr
      refine ⟨Int.ofNat (vocabId (build_or_load_vocab (data.map (fun x => x.brand))) b),
        by simp [encodeBrand, hbr, hb], ?_, ?_⟩
      · intro h
        exact Option.noConfusion h
      · intro c hc
        cases hc
        exact ⟨rfl, Int.ofNat_nonneg _⟩

/-- Claim C4 witness: the encoding evaluated on a two-row dataset, at the
row whose brand is present. -/
theorem brand_encoding_total_witness :
    ∃ v : Int,
      encodeBrand (build_or_load_vocab ([wRow].map (fun x => x.brand))) wRow
        = Except.ok v
      ∧ (wRow.brand = none → v = IGNORE_IDX)
      ∧ (∀ b, wRow.brand = some b →
          v = Int.ofNat (vocabId (build_or_load_vocab ([wRow].map (fun x => x.brand))) b)
          ∧ 0 ≤ v) :=
  brand_encoding_total [wRow] wRow (by simp)

theorem finishTrain_not_raised (f : TrainState → TrainOutcome)
    (hnr : ∀ st e, f st ≠ TrainOutcome.raised e) (model : Classifier)
    (split : List EncodedRow × List EncodedRow) (steps : Nat) (tx : Tx)
    (state : TrainState) :
    ∃ r, finishTrain (f state) model split steps tx state = Except.ok r
      ∧ r.finalSave = ("final-weights", model) := by
  cases hto : f state with
  | raised e => exact absurd hto (hnr state e)
  | completed s => exact ⟨mkResult false model split steps tx state, rfl, rfl⟩
  | keyboardInterrupt => exact ⟨mkResult true model split steps tx state, rfl, rfl⟩

theorem finishTrain_eq_ok {outcome : TrainOutcome} {model : Classifier}
    {split : List EncodedRow × List EncodedRow} {steps : Nat} {tx : Tx}
    {state : TrainState} {r : MainResult}
    (h : finishTrain outcome model split steps tx state = Except.ok r) :
    r = mkResult true model split steps tx state
    ∨ r = mkResult false model split steps tx state := by
  cases outcome with
  | raised e => exact absurd h (by simp [finishTrain])
  | completed s =>
      right
      injection h with h
      exact h.symm
  | keyboardInterrupt =>
      left
      injection h with h
      exact h.symm

theorem mainCore_not_raised (args : TrainingArgs) (data : List Row)
    (ext : Externals) (tok : Tokenizer) (htok : ext.loadTokenizer = Except.ok tok)
    (hnr : ∀ st e, ext.trainOutcome st ≠ TrainOutcome.raised e) :
    ∃ r, mainCore args data ext = Except.ok r
      ∧ r.finalSave = ("final-weights", mainModel args data) := by
  obtain ⟨labelled, hl⟩ := encodeBrandAll_self_ok data
  simp only [mainCore, htok, hl]
  exact finishTrain_not_raised ext.trainOutcome hnr _ _ _ _ _

/-- Claim C1: in every run of main whose trainer.train call raises
KeyboardInterrupt, the exception is caught, the interrupt message is
printed, and the model saved to the final-weights directory is the current
model at the moment of interruption, which (state updates replacing the
state, never rebinding the model) is the model built before training from
the selected data. -/
theorem main_interrupt_saves_model (args : TrainingArgs) (ext : Externals)
    (d : List Row) (tok : Tokenizer)
    (hload : ext.loadData = Except.ok d) (hlen : 1010 ≤ d.length)
    (htok : ext.loadTokenizer = Except.ok tok)
    (hKI : ∀ st, ext.trainOutcome st = TrainOutcome.keyboardInterrupt) :
    ∃ r, script.main args ext = Except.ok r
      ∧ r.interrupted = true
      ∧ r.printedInterruptMsg = true
      ∧ r.finalSave = ("final-weights", mainModel args (d.take 1010)) := by
  rw [main_eq_mainCore args ext d hload hlen]
  obtain ⟨labelled, hl⟩ := encodeBrandAll_self_ok (d.take 1010)
  simp only [mainCore, htok, hl, hKI, finishTrain]
  exact ⟨_, rfl, rfl, rfl, rfl⟩

/-- Claim C1 witness: the interrupted run at the concrete 1010-row dataset
with the default single-device arguments. -/
theorem main_interrupt_saves_model_witness :
    ∃ r, script.main wArgs wExtKI = Except.ok r
      ∧ r.interrupted = true
      ∧ r.printedInterruptMsg = true
      ∧ r.finalSave = ("final-weights", mainModel wArgs (wData.take 1010)) :=
  main_interrupt_saves_model wArgs wExtKI wData wTok rfl
    (by simp only [wData, List.length_replicate, le_refl]) rfl (fun st => rfl)

/-- Claim C2: in every run of main whose trainer.train call either completes
normally or is terminated by a KeyboardInterrupt, execution reaches
model.save_pretrained of the final-weights directory; interruption is not a
fatal error path. -/
theorem main_always_saves_final (args : TrainingArgs) (ext : Externals)
    (d : List Row) (tok : Tokenizer)
    (hload : ext.loadData = Except.ok d) (hlen : 1010 ≤ d.length)
    (htok : ext.loadTokenizer = Except.ok tok)
    (hnr : ∀ st e, ext.trainOutcome st ≠ TrainOutcome.raised e) :
    ∃ r, script.main args ext = Except.ok r
      ∧ r.finalSave = ("final-weights", mainModel args (d.take 1010)) := by
  rw [main_eq_mainCore args ext d hload hlen]
  exact mainCore_not_raised args (d.take 1010) ext tok htok hnr

/-- Claim C2 witness: the normally completing run at the concrete 1010-row
dataset with the default single-device arguments. -/
theorem main_always_saves_final_witness :
    ∃ r, script.main wArgs wExtDone = Except.ok r
      ∧ r.finalSave = ("final-weights", mainModel wArgs (wData.take 1010)) :=
  main_always_saves_final wArgs wExtDone wData wTok rfl
    (by simp only [wData, List.length_replicate, le_refl]) rfl
    (fun st e h => TrainOutcome.noConfusion h)

theorem main_short_data_error (args : TrainingArgs) (ext : Externals)
    (d : List Row) (hload : ext.loadData = Except.ok d) (hlt : d.length < 1010) :
    script.main args ext = Except.error Exc.indexError := by
  by_cases h2 : 2 ≤ d.length
  · have hps : printSamples d = Except.ok () := by
      unfold printSamples; rw [if_pos h2]
    have hsel : select1010 d = Except.error Exc.indexError := by
      unfold select1010; rw [if_neg (by omega)]
    unfold script.main
    simp only [hload, hps, hsel]
  · have hps : printSamples d = Except.error Exc.indexError := by
      unfold printSamples; rw [if_neg h2]
    unfold script.main
    simp only [hload, hps]

/-- Claim C9: main unconditionally restricts the loaded data to exactly its
first 1010 rows before any further processing, for every configuration, and
consequently fails with an index error on any CSV yielding fewer than 1010
rows. -/
theorem main_selects_first_1010 (args : TrainingArgs) (ext : Externals)
    (d : List Row) (hload : ext.loadData = Except.ok d) :
    (1010 ≤ d.length →
      select1010 d = Except.ok (d.take 1010)
      ∧ script.main args ext = mainCore args (d.take 1010) ext)
    ∧ (d.length < 1010 → script.main args ext = Except.error Exc.indexError) := by
  constructor
  · intro hlen
    exact ⟨by unfold select1010; rw [if_pos hlen],
      main_eq_mainCore args ext d hload hlen⟩
  · intro hlt
    exact main_short_data_error args ext d hload hlt

/-- Claim C9 witness: on the 1010-row dataset the selection succeeds and is
the identity prefix, and on a one-row dataset main fails with the index
error. -/
theorem main_selects_first_1010_witness :
    (select1010 wData = Except.ok (wData.take 1010)
      ∧ script.main wArgs wExtKI = mainCore wArgs (wData.take 1010) wExtKI)
    ∧ script.main wArgs wExtShort = Except.error Exc.indexError := by
  refine ⟨?_, ?_⟩
  · exact (main_selects_first_1010 wArgs wExtKI wData rfl).1
      (by simp only [wData, List.length_replicate, le_refl])
  · exact (main_selects_first_1010 wArgs wExtShort [wRow] rfl).2 (by norm_num)

/-- Claim C8: the only exception handler in the script is the
KeyboardInterrupt handler around trainer.train.  A failed dataset load, a
dataset of fewer than 1010 rows, a failed tokenizer load, and any exception
raised inside trainer.train all propagate out of main unhandled, while a
KeyboardInterrupt from trainer.train does not. -/
theorem main_only_ki_handler (args : TrainingArgs) (ext : Externals) :
    (∀ e, ext.loadData = Except.error e → script.main args ext = Except.error e)
    ∧ (∀ d, ext.loadData = Except.ok d → d.length < 1010 →
        script.main args ext = Except.error Exc.indexError)
    ∧ (∀ d e, ext.loadData = Except.ok d → 1010 ≤ d.length →
        ext.loadTokenizer = Except.error e → script.main args ext = Except.error e)
    ∧ (∀ d tok e, ext.loadData = Except.ok d → 1010 ≤ d.length →
        ext.loadTokenizer = Except.ok tok →
        (∀ st, ext.trainOutcome st = TrainOutcome.raised e) →
        script.main args ext = Except.error e)
    ∧ (∀ d tok, ext.loadData = Except.ok d → 1010 ≤ d.length →
        ext.loadTokenizer = Except.ok tok →
        (∀ st, ext.trainOutcome st = TrainOutcome.keyboardInterrupt) →
        ∃ r, script.main args ext = Except.ok r) := by
  refine ⟨?_, ?_, ?_, ?_, ?_⟩
  · intro e he
    unfold script.main
    simp only [he]
  · intro d hload hlt
    exact main_short_data_error args ext d hload hlt
  · intro d e hload hlen htokerr
    rw [main_eq_mainCore args ext d hload hlen]
    simp only [mainCore, htokerr]
  · intro d tok e hload hlen htok hra
    rw [main_eq_mainCore args ext d hload hlen]
    obtain ⟨labelled, hl⟩ := encodeBrandAll_self_ok (d.take 1010)
    simp only [mainCore, htok, hl, hra, finishTrain]
  · intro d tok hload hlen htok hKI
    rw [main_eq_mainCore args ext d hload hlen]
    obtain ⟨labelled, hl⟩ := encodeBrandAll_self_ok (d.take 1010)
    simp only [mainCore, htok, hl, hKI, finishTrain]
    exact ⟨_, rfl⟩

/-- Claim C8 witness: each propagation branch exercised at a concrete run:
a missing data file, a one-row CSV, a failing tokenizer load, an ordinary
exception from the training loop, and a caught KeyboardInterrupt. -/
theorem main_only_ki_handler_witness :
    script.main wArgs wExtLoadErr
        = Except.error (Exc.fileNotFound ("../dataset/train-v2.csv"))
    ∧ script.main wArgs wExtShort = Except.error Exc.indexError
    ∧ script.main wArgs wExtTokErr = Except.error (Exc.other ("tokenizer"))
    ∧ script.main wArgs wExtRaised = Except.error (Exc.other ("boom"))
    ∧ (∃ r, script.main wArgs wExtKI = Except.ok r) := by
  have hlen : 1010 ≤ wData.length := by
    simp only [wData, List.length_replicate, le_refl]
  refine ⟨?_, ?_, ?_, ?_, ?_⟩
  · exact (main_only_ki_handler wArgs wExtLoadErr).1 _ rfl
  · exact (main_only_ki_handler wArgs wExtShort).2.1 [wRow] rfl (by norm_num)
  · exact (main_only_ki_handler wArgs wExtTokErr).2.2.1 wData _ rfl hlen rfl
  · exact (main_only_ki_handler wArgs wExtRaised).2.2.2.1 wData wTok _ rfl hlen rfl
      (fun st => rfl)
  · exact (main_only_ki_handler wArgs wExtKI).2.2.2.2 wData wTok rfl hlen rfl
      (fun st => rfl)

theorem sub_mod_div_eq (n b : Nat) : (n - n % b) / b = n / b := by
  rcases Nat.eq_zero_or_pos b with hb | hb
  · subst hb
    simp [Nat.mod_zero]
  · have h1 : b * (n / b) + n % b = n := Nat.div_add_mod n b
    have h2 : n - n % b = b * (n / b) := by omega
    rw [h2, Nat.mul_div_cancel_left _ hb]

/-- Claim C10: in every run that reaches the training stage, the total step
count passed to the optimizer builder and to create_state both equal the
floor of the train-set size over the batch size, times the epoch count;
trailing examples short of a full batch contribute no steps, and the total
is zero when the batch size exceeds the train-set size. -/
theorem trainer_step_count (args : TrainingArgs) (data : List Row)
    (ext : Externals) (r : MainResult) (h : mainCore args data ext = Except.ok r) :
    r.stateTotalSteps = r.trainLen / args.batch_size * args.max_epochs
    ∧ r.txTotalSteps = r.trainLen / args.batch_size * args.max_epochs
    ∧ r.numTrainSteps = r.stateTotalSteps
    ∧ (r.trainLen < args.batch_size → r.stateTotalSteps = 0)
    ∧ r.stateTotalSteps
        = (r.trainLen - r.trainLen % args.batch_size) / args.batch_size
            * args.max_epochs := by
  simp only [mainCore] at h
  split at h
  · exact absurd h (by simp)
  · split at h
    · exact absurd h (by simp)
    · rcases finishTrain_eq_ok h with hr | hr <;>
        · subst hr
          refine ⟨rfl, rfl, rfl, ?_, ?_⟩
          · intro hlt
            simp only [mkResult, createState, num_train_steps] at hlt ⊢
            rw [Nat.div_eq_of_lt hlt, Nat.zero_mul]
          · simp only [mkResult, createState, num_train_steps]
            rw [sub_mod_div_eq]

/-- Claim C10 witness: the step-count facts at a concrete run of the
pipeline core on a one-row dataset with the default single-device
arguments. -/
theorem trainer_step_count_witness :
    wResult.stateTotalSteps
        = wResult.trainLen / wArgs.batch_size * wArgs.max_epochs
    ∧ wResult.txTotalSteps
        = wResult.trainLen / wArgs.batch_size * wArgs.max_epochs
    ∧ wResult.numTrainSteps = wResult.stateTotalSteps
    ∧ wResult.stateTotalSteps = 0
    ∧ wResult.stateTotalSteps
        = (wResult.trainLen - wResult.trainLen % wArgs.batch_size)
            / wArgs.batch_size * wArgs.max_epochs := by
  have h20 : (⌈(1 : Rat) / 20⌉ : Int) = 1 := by
    rw [Int.ceil_eq_iff]
    norm_num
  have hnt : numTest 1 wArgs.val_split = 1 := by
    norm_num [numTest, wArgs, TrainingArgs.postInit, defaultArgFields, h20]
  have hsplit : train_test_split [wEnc] wArgs.val_split wArgs.seed = ([], [wEnc]) := by
    simp only [train_test_split, List.length_singleton, hnt]
    rfl
  have henc : encodeBrandAll (build_or_load_vocab ([wRow].map (fun r => r.brand)))
      [wRow] = Except.ok [(wRow, (0 : Int))] := by rfl
  have hpre : preprocessAll wTok.sep_token [(wRow, (0 : Int))] = [wEnc] := by rfl
  have hcore : mainCore wArgs [wRow] wExtDone = Except.ok wResult := by
    simp only [mainCore, wExtDone, henc, hpre, hsplit]
    rfl
  have h := trainer_step_count wArgs [wRow] wExtDone wResult hcore
  refine ⟨h.1, h.2.1, h.2.2.1, h.2.2.2.1 ?_, h.2.2.2.2⟩
  norm_num [wResult, wArgs, TrainingArgs.postInit, defaultArgFields]
